import Mathlib

/-!
Shallow embedding of `src/app.py`, the YouTube comment-analysis pipeline:
comment pagination with a hard cap (`fetch_comments`), percentage sampling,
the GPT response parser with structured-then-fallback extraction
(`gpt_sentiment_analysis`), the summary operation (`gpt_comment_summary`),
and the like-count ranking of comments and replies.

Python strings are modeled as lists of characters, Python floats as
rationals, and the external YouTube / OpenAI calls as explicit parameters
(`Except` for a call that can raise, a list of page responses for the
paginated comment API, an explicit permutation for `random.shuffle`).
-/

/-- Python strings are modeled as lists of characters. -/
abbrev Str := List Char

/-- Whitespace characters removed by Python `str.strip()` (ASCII subset). -/
def pyWsChar (c : Char) : Bool :=
  c = ' ' || c = '\t' || c = '\n' || c = '\r' || c = '\x0b' || c = '\x0c'

/-- Embedding of Python `str.strip()`. -/
def pyStrip (s : Str) : Str :=
  ((s.dropWhile pyWsChar).reverse.dropWhile pyWsChar).reverse

/-- Embedding of Python `str.lower()` (ASCII case folding). -/
def pyLower (s : Str) : Str := s.map Char.toLower

/-- Line-break characters recognized by Python `str.splitlines()` (ASCII subset). -/
def pyLineBreak (c : Char) : Bool :=
  c = '\n' || c = '\r' || c = '\x0b' || c = '\x0c'

/-- Worker for `pySplitlines`; `\r\n` counts as a single line break and a
trailing line break produces no final empty line, as in Python. -/
def pySplitlinesAux : Str → Str → List Str
  | acc, '\r' :: '\n' :: rest => acc.reverse :: pySplitlinesAux [] rest
  | acc, c :: rest =>
    if pyLineBreak c then acc.reverse :: pySplitlinesAux [] rest
    else pySplitlinesAux (c :: acc) rest
  | acc, [] => if acc.isEmpty then [] else [acc.reverse]

/-- Embedding of Python `str.splitlines()`. -/
def pySplitlines (s : Str) : List Str := pySplitlinesAux [] s

/-- Numeric value of a run of decimal digits. -/
def digitsVal (ds : Str) : Nat := ds.foldl (fun a c => 10 * a + (c.toNat - 48)) 0

/-- First run of decimal digits on a line, as Python
`re.findall("\\d+")[0]` followed by `int(...)` (lines 291-298). -/
def firstNumber : Str → Option Nat
  | [] => none
  | c :: rest =>
    if c.isDigit then some (digitsVal (c :: rest.takeWhile Char.isDigit))
    else firstNumber rest

/-- JSON values as produced by Python `json.loads`.  Integers and
non-integral numbers are kept apart because the validation step checks
`isinstance(..., int)`; a non-integral number keeps its source text. -/
inductive Json
  | null
  | bool (b : Bool)
  | num (n : Int)
  | fnum (raw : Str)
  | str (s : Str)
  | arr (xs : List Json)
  | obj (fields : List (Str × Json))

mutual

/-- Structural equality on JSON values (Python `==` on decoded values). -/
def jsonBEq : Json → Json → Bool
  | Json.null, Json.null => true
  | Json.bool a, Json.bool b => a == b
  | Json.num a, Json.num b => a == b
  | Json.fnum a, Json.fnum b => a == b
  | Json.str a, Json.str b => a == b
  | Json.arr a, Json.arr b => jsonListBEq a b
  | Json.obj a, Json.obj b => jsonFieldsBEq a b
  | _, _ => false

/-- Elementwise equality of JSON arrays. -/
def jsonListBEq : List Json → List Json → Bool
  | [], [] => true
  | x :: xs, y :: ys => jsonBEq x y && jsonListBEq xs ys
  | _, _ => false

/-- Elementwise equality of JSON object member lists. -/
def jsonFieldsBEq : List (Str × Json) → List (Str × Json) → Bool
  | [], [] => true
  | (k1, v1) :: xs, (k2, v2) :: ys => k1 == k2 && jsonBEq v1 v2 && jsonFieldsBEq xs ys
  | _, _ => false

end

instance : BEq Json := ⟨jsonBEq⟩

/-- Whitespace skipped between JSON tokens (the four characters of the
JSON grammar, which is what Python's `json` module skips). -/
def jsonWs (c : Char) : Bool := c = ' ' || c = '\t' || c = '\n' || c = '\r'

/-- Drop leading JSON whitespace. -/
def skipWs : Str → Str
  | [] => []
  | c :: rest => if jsonWs c then skipWs rest else c :: rest

/-- Hexadecimal digit test. -/
def isHexDigitC (c : Char) : Bool :=
  c.isDigit || ('a' ≤ c && c ≤ 'f') || ('A' ≤ c && c ≤ 'F')

/-- Value of a hexadecimal digit. -/
def hexVal (c : Char) : Nat :=
  if c.isDigit then c.toNat - 48 else c.toLower.toNat - 87

/-- Single-character JSON string escapes. -/
def escChar : Char → Option Char
  | '"' => some '"'
  | '\\' => some '\\'
  | '/' => some '/'
  | 'b' => some '\x08'
  | 'f' => some '\x0c'
  | 'n' => some '\n'
  | 'r' => some '\r'
  | 't' => some '\t'
  | _ => none

/-- Decode one JSON string body (the opening quote already consumed);
raw control characters are rejected as in strict-mode `json.loads`. -/
def parseStrBody : Str → Option (Str × Str)
  | [] => none
  | '"' :: rest => some ([], rest)
  | '\\' :: 'u' :: a :: b :: c :: d :: rest =>
    if isHexDigitC a && isHexDigitC b && isHexDigitC c && isHexDigitC d then
      (parseStrBody rest).map fun p =>
        (Char.ofNat (hexVal a * 4096 + hexVal b * 256 + hexVal c * 16 + hexVal d) :: p.1, p.2)
    else none
  | '\\' :: e :: rest =>
    match escChar e with
    | some c => (parseStrBody rest).map fun p => (c :: p.1, p.2)
    | none => none
  | c :: rest =>
    if c.toNat < 32 then none
    else (parseStrBody rest).map fun p => (c :: p.1, p.2)

/-- Signed integer value of a digit run. -/
def numVal (neg : Bool) (ds : Str) : Int :=
  if neg then -(Int.ofNat (digitsVal ds)) else Int.ofNat (digitsVal ds)

/-- Integer part of a JSON number (no redundant leading zeros). -/
def parseIntDigits : Str → Option (Str × Str)
  | '0' :: rest => some (['0'], rest)
  | c :: rest =>
    if c.isDigit then some (c :: rest.takeWhile Char.isDigit, rest.dropWhile Char.isDigit)
    else none
  | [] => none

/-- Optional fractional part of a JSON number. -/
def parseFracPart : Str → Option (Str × Str)
  | '.' :: rest =>
    let ds := rest.takeWhile Char.isDigit
    if ds.isEmpty then none else some (ds, rest.dropWhile Char.isDigit)
  | s => some ([], s)

/-- Exponent digits after the `e` marker of a JSON number. -/
def parseExpTail (s : Str) : Option (Str × Str) :=
  let s1 := match s with
    | '+' :: r => r
    | '-' :: r => r
    | _ => s
  let ds := s1.takeWhile Char.isDigit
  if ds.isEmpty then none else some (ds, s1.dropWhile Char.isDigit)

/-- Optional exponent part of a JSON number. -/
def parseExpPart : Str → Option (Str × Str)
  | 'e' :: rest => parseExpTail rest
  | 'E' :: rest => parseExpTail rest
  | s => some ([], s)

/-- Parse a JSON number starting at `s`; integral numbers become
`Json.num`, anything with a fraction or exponent becomes `Json.fnum`. -/
def parseNumber (s : Str) : Option (Json × Str) := do
  let (neg, s1) := match s with
    | '-' :: rest => (true, rest)
    | _ => (false, s)
  let (ids, r1) ← parseIntDigits s1
  let (fds, r2) ← parseFracPart r1
  let (eds, r3) ← parseExpPart r2
  if fds.isEmpty && eds.isEmpty then
    pure (Json.num (numVal neg ids), r3)
  else
    pure (Json.fnum (s.take (s.length - r3.length)), r3)

mutual

/-- Parse one JSON value; the fuel only bounds recursion depth and is
chosen large enough in `json_loads` that it never runs out. -/
def parseValue : Nat → Str → Option (Json × Str)
  | 0, _ => none
  | _ + 1, [] => none
  | fuel + 1, c :: rest =>
    if c = '{' then parseObjRest fuel (skipWs rest) true
    else if c = '[' then parseArrRest fuel (skipWs rest) true
    else if c = '"' then (parseStrBody rest).map fun p => (Json.str p.1, p.2)
    else if c = '-' then
      match rest with
      | 'I' :: 'n' :: 'f' :: 'i' :: 'n' :: 'i' :: 't' :: 'y' :: r =>
        some (Json.fnum ('-' :: "Infinity".toList), r)
      | _ => parseNumber (c :: rest)
    else if c.isDigit then parseNumber (c :: rest)
    else
      match c :: rest with
      | 'n' :: 'u' :: 'l' :: 'l' :: r => some (Json.null, r)
      | 't' :: 'r' :: 'u' :: 'e' :: r => some (Json.bool true, r)
      | 'f' :: 'a' :: 'l' :: 's' :: 'e' :: r => some (Json.bool false, r)
      | 'N' :: 'a' :: 'N' :: r => some (Json.fnum ("NaN".toList), r)
      | 'I' :: 'n' :: 'f' :: 'i' :: 'n' :: 'i' :: 't' :: 'y' :: r =>
        some (Json.fnum ("Infinity".toList), r)
      | _ => none

/-- Parse the members of a JSON object after the opening brace
(whitespace already skipped); `first` is true before any member. -/
def parseObjRest : Nat → Str → Bool → Option (Json × Str)
  | 0, _, _ => none
  | _ + 1, '}' :: rest, true => some (Json.obj [], rest)
  | fuel + 1, s, _ =>
    match s with
    | '"' :: rest => do
      let (key, r1) ← parseStrBody rest
      match skipWs r1 with
      | ':' :: r2 => do
        let (v, r3) ← parseValue fuel (skipWs r2)
        match skipWs r3 with
        | ',' :: r4 => do
          let (tail, r5) ← parseObjRest fuel (skipWs r4) false
          match tail with
          | Json.obj kvs => pure (Json.obj ((key, v) :: kvs), r5)
          | _ => none
        | '}' :: r4 => pure (Json.obj [(key, v)], r4)
        | _ => none
      | _ => none
    | _ => none

/-- Parse the elements of a JSON array after the opening bracket. -/
def parseArrRest : Nat → Str → Bool → Option (Json × Str)
  | 0, _, _ => none
  | _ + 1, ']' :: rest, true => some (Json.arr [], rest)
  | fuel + 1, s, _ => do
    let (v, r1) ← parseValue fuel s
    match skipWs r1 with
    | ',' :: r2 => do
      let (tail, r3) ← parseArrRest fuel (skipWs r2) false
      match tail with
      | Json.arr xs => pure (Json.arr (v :: xs), r3)
      | _ => none
    | ']' :: r2 => pure (Json.arr [v], r2)
    | _ => none

end

/-- Embedding of Python `json.loads`: decode the whole text or fail
(`json.JSONDecodeError`); trailing non-whitespace is rejected. -/
def json_loads (s : Str) : Option Json :=
  match parseValue (2 * s.length + 4) (skipWs s) with
  | some (j, rest) => if (skipWs rest).isEmpty then some j else none
  | none => none

/-- Python's substring test `needle in hay`. -/
def isSubstr (needle : Str) : Str → Bool
  | [] => needle.isEmpty
  | c :: rest => needle.isPrefixOf (c :: rest) || isSubstr needle rest

/-- A result of `gpt_sentiment_analysis`: either the decoded JSON object
returned verbatim at line 282 (the structured-success path), or one of the
dict literals the function itself constructs — three counts plus an
optional error marker. -/
inductive SentimentResult
  | parsed (j : Json)
  | tally (positive neutral negative : Int) (error : Option Str)

/-- The error marker carried by a constructed tally (`"error"` key). -/
def SentimentResult.errorOf : SentimentResult → Option Str
  | SentimentResult.parsed _ => none
  | SentimentResult.tally _ _ _ e => e

/-- The `positive` count of a constructed tally. -/
def SentimentResult.posOf : SentimentResult → Option Int
  | SentimentResult.parsed _ => none
  | SentimentResult.tally p _ _ _ => some p

/-- Python `k in x` on a decoded JSON value (membership used at line 279);
`none` models the `TypeError` raised when `x` supports no membership test,
which escapes to the outer handler at line 308. -/
def pyContains (j : Json) (k : Str) : Option Bool :=
  match j with
  | Json.obj kvs => some (kvs.any fun kv => kv.1 == k)
  | Json.arr xs => some (xs.any fun x => x == Json.str k)
  | Json.str s => some (isSubstr k s)
  | _ => none

/-- Python `x[k]` on a decoded JSON value; `json.loads` keeps the last
value for a duplicated key. -/
def pyIndex (j : Json) (k : Str) : Option Json :=
  match j with
  | Json.obj kvs => (kvs.reverse.find? fun kv => kv.1 == k).map Prod.snd
  | _ => none

/-- Python `isinstance(v, int)` on a decoded JSON value; Python booleans
are instances of `int`. -/
def jsonIsInt : Json → Bool
  | Json.num _ => true
  | Json.bool _ => true
  | _ => false

/-- One conjunct of the line-279 check:
`k in sentiment_results and isinstance(sentiment_results[k], int)`;
`none` models a raised `TypeError`. -/
def keyOk (j : Json) (k : Str) : Option Bool :=
  match pyContains j k with
  | none => none
  | some false => some false
  | some true =>
    match pyIndex j k with
    | none => none
    | some v => some (jsonIsInt v)

/-- The `all(...)` shape validation at line 279, short-circuiting over the
keys `positive`, `neutral`, `negative` in order. -/
def validShape (j : Json) : Option Bool :=
  match keyOk j ("positive".toList) with
  | none => none
  | some false => some false
  | some true =>
    match keyOk j ("neutral".toList) with
    | none => none
    | some false => some false
    | some true => keyOk j ("negative".toList)

/-- The mutable fallback dict `sentiment_results_fallback` of line 287. -/
structure FallbackTally where
  positive : Int
  neutral : Int
  negative : Int
deriving DecidableEq

/-- The two substring patterns checked for one label at lines 290-296:
`"<label>:" in line` or `"\"<label>\":" in line`. -/
def lineHasLabel (label : Str) (line : Str) : Bool :=
  isSubstr (label ++ [':']) line || isSubstr ('"' :: label ++ ['"', ':']) line

/-- One iteration of the fallback loop (lines 288-298): strip the line,
find the first matching label of the if/elif chain, and overwrite that
label's count with the first integer token when one exists. -/
def fallbackLine (t : FallbackTally) (rawLine : Str) : FallbackTally :=
  let line := pyStrip rawLine
  if lineHasLabel ("positive".toList) line then
    match firstNumber line with
    | some n => ⟨Int.ofNat n, t.neutral, t.negative⟩
    | none => t
  else if lineHasLabel ("neutral".toList) line then
    match firstNumber line with
    | some n => ⟨t.positive, Int.ofNat n, t.negative⟩
    | none => t
  else if lineHasLabel ("negative".toList) line then
    match firstNumber line with
    | some n => ⟨t.positive, t.neutral, Int.ofNat n⟩
    | none => t
  else t

/-- The error message of line 305 (an f-string ending with the response text). -/
def fallbackMsg (t2 : Str) : Str :=
  "GPT response not parsable as JSON or text: ".toList ++ t2

/-- The `except json.JSONDecodeError` fallback, lines 283-305, applied to
the fence-stripped response text `t2`: line-oriented extraction over the
lowercased text, returning the counts when their sum is positive and an
error-marked zero tally otherwise. -/
def fallbackSentiment (t2 : Str) : SentimentResult :=
  let final := (pySplitlines (pyLower t2)).foldl fallbackLine ⟨0, 0, 0⟩
  if 0 < final.positive + final.neutral + final.negative then
    SentimentResult.tally final.positive final.neutral final.negative none
  else
    SentimentResult.tally 0 0 0 (some (fallbackMsg t2))

/-- The 7-character fence opener checked at line 272. -/
def fence7 : Str := "```json".toList

/-- The 3-character fence closer checked at line 274. -/
def fence3 : Str := "```".toList

/-- The code-fence stripping of lines 272-275: drop a leading 7-character
`json`-tagged fence opener, then a trailing 3-character fence closer. -/
def stripFence (s : Str) : Str :=
  let s1 := if fence7.isPrefixOf s then s.drop 7 else s
  if fence3.isSuffixOf s1 then s1.take (s1.length - 3) else s1

/-- The error marker of line 281. -/
def invalidStructMsg : Str := "Invalid JSON structure or data types from GPT.".toList

/-- Marker standing in for the interpreter-supplied text of a `TypeError`
raised by the line-279 check on a non-indexable decoded value. -/
def typeErrMsg : Str := "TypeError".toList

/-- Lines 270-305 applied to the fence-stripped text: strict decode, shape
validation, and the line fallback only on decode failure. -/
def afterFence (t2 : Str) : SentimentResult :=
  match json_loads t2 with
  | some j =>
    match validShape j with
    | none => SentimentResult.tally 0 0 0 (some typeErrMsg)
    | some false => SentimentResult.tally 0 0 0 (some invalidStructMsg)
    | some true => SentimentResult.parsed j
  | none => fallbackSentiment t2

/-- Lines 268-305: strip the raw model text, remove fences, then decode. -/
def parseSentimentResponse (raw : Str) : SentimentResult :=
  afterFence (stripFence (pyStrip raw))

/-- An element of a `comments_texts_list` argument: a Python string, or a
value of any other type. -/
inductive PyVal
  | str (s : Str)
  | nonstr
deriving DecidableEq

/-- The cleaning comprehension of line 238 (and line 321): keep the
entries that are strings with truthy `strip()`. -/
def cleanTexts (texts : List PyVal) : List Str :=
  texts.filterMap fun v =>
    match v with
    | PyVal.str s => if (pyStrip s).isEmpty then none else some s
    | PyVal.nonstr => none

/-- Error marker of line 233. -/
def clientErrMsg : Str := "OpenAI client not initialized.".toList

/-- Error marker of line 236. -/
def emptyListMsg : Str := "Немає текстів коментарів для аналізу.".toList

/-- Error marker of line 240. -/
def emptyCleanMsg : Str := "Після очистки не залишилося коментарів для аналізу.".toList

/-- `gpt_sentiment_analysis`, lines 230-310.  The OpenAI call (and the
`.content.strip()` access on its response) is modeled by `api`:
`Except.ok raw` for a returned response text, `Except.error e` for any
exception the call raises, handled at lines 308-310.  The prompt built
from `clean_comments_list[:100]` only feeds that call, so it does not
appear separately. -/
def gpt_sentiment_analysis (clientOk : Bool) (texts : List PyVal)
    (api : Except Str Str) : SentimentResult :=
  if !clientOk then SentimentResult.tally 0 0 0 (some clientErrMsg)
  else if texts.isEmpty then SentimentResult.tally 0 0 0 (some emptyListMsg)
  else if (cleanTexts texts).isEmpty then SentimentResult.tally 0 0 0 (some emptyCleanMsg)
  else
    match api with
    | Except.error e => SentimentResult.tally 0 0 0 (some e)
    | Except.ok raw => parseSentimentResponse raw

/-- Message of line 316. -/
def summaryClientMsg : Str := "Клієнт OpenAI не ініціалізований.".toList

/-- Message of line 319. -/
def summaryEmptyMsg : Str := "Немає коментарів для створення підсумку.".toList

/-- Message of line 323. -/
def summaryCleanMsg : Str :=
  "Після очистки не залишилося коментарів для створення підсумку.".toList

/-- The f-string of line 356. -/
def gptWarnMsg : Str := "⚠️ Помилка GPT: ".toList

/-- `gpt_comment_summary`, lines 313-356; the OpenAI call is `api`, and
the random sub-sample of line 327 only feeds the prompt of that call. -/
def gpt_comment_summary (clientOk : Bool) (texts : List PyVal)
    (api : Except Str Str) : Str :=
  if !clientOk then summaryClientMsg
  else if texts.isEmpty then summaryEmptyMsg
  else if (cleanTexts texts).isEmpty then summaryCleanMsg
  else
    match api with
    | Except.error e => gptWarnMsg ++ e
    | Except.ok raw => pyStrip raw

/-- One element of an item's `replies.comments` list as the UI filter at
lines 508-513 sees it: a dict with optional `snippet.likeCount` and
`snippet.textDisplay` (where `none` covers an absent or non-integer /
non-string value), or a non-dict value. -/
inductive ReplyVal
  | dict (likeCount : Option Int) (textDisplay : Option Str)
  | nondict
deriving DecidableEq

/-- One raw item of a `commentThreads` page: the top-level snippet's
optional `textDisplay` and `likeCount`, plus the inline replies. -/
structure RawItem where
  textDisplay : Option Str
  likeCount : Option Int
  replies : List ReplyVal
deriving DecidableEq

/-- The dict appended at lines 198-202: `text`, `likes` and `replies`;
`likes` is `Option Int` so that the ranking filter can also be stated on
records whose like count is not an integer. -/
structure CommentRec where
  text : Str
  likes : Option Int
  replies : List ReplyVal
deriving DecidableEq

/-- Lines 198-202: build the stored comment dict from one API item, with
the `.get` defaults `""` and `0`. -/
def toComment (it : RawItem) : CommentRec :=
  ⟨it.textDisplay.getD [], some (it.likeCount.getD 0), it.replies⟩

/-- One response of the paginated `commentThreads().list` API: a page of
items together with whether a `nextPageToken` is present, or a raised
exception. -/
inductive PageResp
  | ok (items : List RawItem) (hasNext : Bool)
  | err
deriving DecidableEq

/-- The inner loop of lines 194-204: append each item of the page and
break as soon as the accumulated count reaches the cap, mid-page. -/
def pageAppend (cap : Nat) : List RawItem → List CommentRec → List CommentRec
  | [], acc => acc
  | it :: rest, acc =>
    let acc2 := acc ++ [toComment it]
    if cap ≤ acc2.length then acc2 else pageAppend cap rest acc2

/-- The pagination loop of lines 185-211 over the sequence of responses
the API yields: stop at the cap, at a missing continuation token, or —
modeled as `none` — on an exception that escapes to the handler at
line 225. -/
def fetchPages (cap : Nat) : List PageResp → List CommentRec → Option (List CommentRec)
  | [], acc => some acc
  | PageResp.err :: _, _ => none
  | PageResp.ok items hasNext :: rest, acc =>
    let acc2 := pageAppend cap items acc
    if cap ≤ acc2.length then some acc2
    else if hasNext then fetchPages cap rest acc2
    else some acc2

/-- The `pct_str` argument of `fetch_comments`: the literal `"100%"`, any
other string parsing as the percentage `p` (a Python float, modeled as a
rational), or a string whose parse raises `ValueError` (line 221). -/
inductive Pct
  | hundred
  | frac (p : ℚ)
  | malformed
deriving DecidableEq

/-- Python `int()` on a number: truncation toward zero. -/
def pyInt (x : ℚ) : Int := if 0 ≤ x then ⌊x⌋ else ⌈x⌉

/-- Python slicing `l[:n]`, including the negative-index convention. -/
def pySliceTo (l : List CommentRec) (n : Int) : List CommentRec :=
  if 0 ≤ n then l.take n.toNat else l.take (l.length - (-n).toNat)

/-- The percentage handling of lines 213-224: the literal `"100%"` (and a
malformed percentage) returns the data unchanged; otherwise shuffle and
take the first `int(len * pct/100)` records.  `shuffle` stands for
`random.shuffle` and is constrained to a permutation in the theorems. -/
def sampleStep (pct : Pct) (shuffle : List CommentRec → List CommentRec)
    (data : List CommentRec) : List CommentRec :=
  match pct with
  | Pct.hundred => data
  | Pct.malformed => data
  | Pct.frac p =>
    let n := pyInt ((data.length : ℚ) * (p / 100))
    pySliceTo (shuffle data) n

/-- Line 183: the global hard cap on fetched comments. -/
def max_comments_limit : Nat := 1000

/-- `fetch_comments`, lines 179-227, from the pagination loop on (the
identifier regex and API handle construction stay outside the modeled
state): the whole `try` block returns `[]` when any page raises. -/
def fetch_comments (pct : Pct) (shuffle : List CommentRec → List CommentRec)
    (pages : List PageResp) : List CommentRec :=
  match fetchPages max_comments_limit pages [] with
  | none => []
  | some data => sampleStep pct shuffle data

/-- The sort key of line 500 (every ranked record has an integer count,
so the default is never exercised after the filter). -/
def likeVal (c : CommentRec) : Int := c.likes.getD 0

/-- Descending like-count order: `a` may be placed before `b`. -/
def likeGE (a b : CommentRec) : Prop := likeVal b ≤ likeVal a

instance : DecidableRel likeGE := fun _ _ => inferInstanceAs (Decidable (_ ≤ _))

instance : IsTotal CommentRec likeGE := ⟨fun a b => Int.le_total (likeVal b) (likeVal a)⟩

instance : IsTrans CommentRec likeGE := ⟨fun _ _ _ h1 h2 => le_trans h2 h1⟩

/-- Line 495: keep the comments whose `likes` value is an integer. -/
def comments_with_likes (l : List CommentRec) : List CommentRec :=
  l.filter fun c => c.likes.isSome

/-- Line 500 before truncation: `sorted(..., key=likes, reverse=True)`;
Python's `sorted` is a stable sort, modeled by stable insertion sort. -/
def sortedByLikes (l : List CommentRec) : List CommentRec :=
  List.insertionSort likeGE (comments_with_likes l)

/-- Line 500: the ranked list truncated to the top 10. -/
def top_10_comments (l : List CommentRec) : List CommentRec :=
  (sortedByLikes l).take 10

/-- The `snippet.likeCount` access of line 511. -/
def replyLike (r : ReplyVal) : Option Int :=
  match r with
  | ReplyVal.dict lc _ => lc
  | ReplyVal.nondict => none

/-- Truthiness of `snippet.textDisplay` (line 512): present and non-empty. -/
def replyTextTruthy (r : ReplyVal) : Bool :=
  match r with
  | ReplyVal.dict _ (some s) => !s.isEmpty
  | _ => false

/-- The `isinstance(r, dict)` test of line 510. -/
def replyIsDict (r : ReplyVal) : Bool :=
  match r with
  | ReplyVal.dict _ _ => true
  | ReplyVal.nondict => false

/-- The validity filter of lines 508-513. -/
def valid_replies_list (replies : List ReplyVal) : List ReplyVal :=
  replies.filter fun r => replyIsDict r && (replyLike r).isSome && replyTextTruthy r

/-- The sort key of line 516. -/
def replyLikeVal (r : ReplyVal) : Int := (replyLike r).getD 0

/-- Descending reply like-count order. -/
def replyGE (a b : ReplyVal) : Prop := replyLikeVal b ≤ replyLikeVal a

instance : DecidableRel replyGE := fun _ _ => inferInstanceAs (Decidable (_ ≤ _))

instance : IsTotal ReplyVal replyGE := ⟨fun a b => Int.le_total (replyLikeVal b) (replyLikeVal a)⟩

instance : IsTrans ReplyVal replyGE := ⟨fun _ _ _ h1 h2 => le_trans h2 h1⟩

/-- Lines 514-518: sort the valid replies by like count descending and
keep at most 3. -/
def sorted_replies_list (replies : List ReplyVal) : List ReplyVal :=
  (List.insertionSort replyGE (valid_replies_list replies)).take 3

/-- A payload wrapped in a json-tagged code fence. -/
def wrapFence (t : Str) : Str := fence7 ++ t ++ fence3

/-- Concrete input: JSON that decodes but misses the `negative` key. -/
def rawMissingKey : Str := "\x7b\"positive\": 3, \"neutral\": 2\x7d".toList

/-- The decoded value of `rawMissingKey`. -/
def missingKeyJson : Json :=
  Json.obj [(("positive".toList), Json.num 3), (("neutral".toList), Json.num 2)]

/-- The decoded value of `wellFormedPayload`. -/
def wellFormedJson : Json :=
  Json.obj [(("positive".toList), Json.num 1), (("neutral".toList), Json.num 2),
    (("negative".toList), Json.num 3)]

/-- Concrete input: no structured payload and no sentiment label. -/
def rawNoLabels : Str := "hello world".toList

/-- Concrete input: a well-formed structured sentiment payload. -/
def wellFormedPayload : Str := "\x7b\"positive\": 1, \"neutral\": 2, \"negative\": 3\x7d".toList

/-- Concrete fetch data: one page with a single item. -/
def cexItems : List RawItem := [⟨none, none, []⟩]

/-- Concrete fetch data: a successful page announcing a continuation,
followed by a failing page. -/
def cexPages : List PageResp := [PageResp.ok cexItems true, PageResp.err]

/-- Concrete texts with no usable entry: a non-string and a blank string. -/
def wTexts : List PyVal := [PyVal.nonstr, PyVal.str ("   ".toList)]

/-- Concrete texts with one usable entry. -/
def sTexts : List PyVal := [PyVal.str ("hi".toList)]

/-- Concrete comment records with like counts 5, 5, 3, None, 10, in fetch
order (the example of the ranking claim). -/
def exA : CommentRec := ⟨"a".toList, some 5, []⟩

/-- Second record with like count 5. -/
def exB : CommentRec := ⟨"b".toList, some 5, []⟩

/-- Record with like count 3. -/
def exC : CommentRec := ⟨"c".toList, some 3, []⟩

/-- Record with a non-integer like count. -/
def exD : CommentRec := ⟨"d".toList, none, []⟩

/-- Record with like count 10. -/
def exE : CommentRec := ⟨"e".toList, some 10, []⟩

/-- The ranking example list, in fetch order. -/
def exComments : List CommentRec := [exA, exB, exC, exD, exE]

/-- Concrete single-element fetch data for the sampling witness. -/
def sampleData : List CommentRec := [exA]

/-- Valid reply with like count 7. -/
def exZ : ReplyVal := ReplyVal.dict (some 7) (some ("z".toList))

/-- Valid reply with like count 4. -/
def exV : ReplyVal := ReplyVal.dict (some 4) (some ("v".toList))

/-- Valid reply with like count 2. -/
def exY : ReplyVal := ReplyVal.dict (some 2) (some ("y".toList))

/-- Valid reply with like count 1. -/
def exW : ReplyVal := ReplyVal.dict (some 1) (some ("w".toList))

/-- A reply list with four valid replies plus three invalid entries
(missing like count, empty text, non-dict). -/
def exReplies : List ReplyVal :=
  [exW, ReplyVal.dict none (some ("x".toList)), ReplyVal.dict (some 5) (some []),
    ReplyVal.nondict, exY, exV, exZ]

/-- The accumulated length never exceeds the cap once it is below it:
the inner loop of lines 194-204 breaks at the cap mid-page. -/
theorem pageAppend_length_le (cap : Nat) (items : List RawItem) :
    ∀ acc : List CommentRec, acc.length < cap →
      (pageAppend cap items acc).length ≤ cap := by
  induction items with
  | nil => intro acc h; exact Nat.le_of_lt h
  | cons it rest ih =>
    intro acc h
    rw [pageAppend]
    split
    · next hc => simp only [List.length_append, List.length_cons, List.length_nil]; omega
    · next hc => exact ih _ (Nat.lt_of_not_le hc)

/-- A successful pagination result never exceeds the cap. -/
theorem fetchPages_length_le (cap : Nat) (pages : List PageResp) :
    ∀ (acc : List CommentRec), acc.length < cap →
      ∀ res, fetchPages cap pages acc = some res → res.length ≤ cap := by
  induction pages with
  | nil =>
    intro acc h res hres
    rw [fetchPages] at hres
    cases hres
    exact Nat.le_of_lt h
  | cons pg rest ih =>
    intro acc h res hres
    cases pg with
    | err => exact absurd hres (by rw [fetchPages]; exact fun hh => Option.noConfusion hh)
    | ok items hasNext =>
      rw [fetchPages] at hres
      split at hres
      · next hc =>
        cases hres
        exact pageAppend_length_le cap items acc h
      · next hc =>
        split at hres
        · exact ih _ (Nat.lt_of_not_le hc) res hres
        · cases hres
          exact pageAppend_length_le cap items acc h

/-- A Python slice `l[:n]` never lengthens the list. -/
theorem pySliceTo_length_le (l : List CommentRec) (n : Int) :
    (pySliceTo l n).length ≤ l.length := by
  unfold pySliceTo
  split <;> simp [List.length_take]

/-- Claim C1: every fetch returns at most 1000 comment records, for every
requested percentage — including the "100%" (all) request — and however
many comments the paginated API would yield; the cap is enforced even
mid-page. -/
theorem fetch_comments_length_le_cap (pct : Pct)
    (shuffle : List CommentRec → List CommentRec)
    (pages : List PageResp)
    (hsh : ∀ l, (shuffle l).length = l.length) :
    (fetch_comments pct shuffle pages).length ≤ 1000 := by
  unfold fetch_comments
  cases hfp : fetchPages max_comments_limit pages [] with
  | none => simp
  | some data =>
    have hdata : data.length ≤ 1000 :=
      fetchPages_length_le max_comments_limit pages [] (by norm_num [max_comments_limit]) data hfp
    cases pct with
    | hundred => simpa [sampleStep] using hdata
    | malformed => simpa [sampleStep] using hdata
    | frac p =>
      simp only [sampleStep]
      calc (pySliceTo (shuffle data) _).length
          ≤ (shuffle data).length := pySliceTo_length_le _ _
        _ = data.length := hsh data
        _ ≤ 1000 := hdata

/-- Witness for C1 at a concrete percentage, shuffle and page list. -/
theorem fetch_comments_length_le_cap_witness :
    (fetch_comments Pct.hundred id [PageResp.ok cexItems false]).length ≤ 1000 :=
  fetch_comments_length_le_cap Pct.hundred id [PageResp.ok cexItems false] (fun _ => rfl)

/-- Claim C2: for a percentage strictly between 0 and 100 the sample has
exactly floor(len * pct/100) records and every sampled record comes from
the fetched data; the literal "100%" request returns the very same
sequence, unshuffled. -/
theorem sample_floor_subset_identity (data : List CommentRec)
    (shuffle : List CommentRec → List CommentRec) (p : ℚ)
    (hperm : (shuffle data).Perm data) (hp0 : 0 < p) (hp1 : p < 100) :
    ((sampleStep (Pct.frac p) shuffle data).length : Int)
        = ⌊(data.length : ℚ) * (p / 100)⌋
      ∧ (∀ x ∈ sampleStep (Pct.frac p) shuffle data, x ∈ data)
      ∧ sampleStep Pct.hundred shuffle data = data := by
  have hx0 : (0 : ℚ) ≤ (data.length : ℚ) * (p / 100) := by positivity
  have hfl0 : 0 ≤ ⌊(data.length : ℚ) * (p / 100)⌋ := Int.floor_nonneg.mpr hx0
  have hple : (data.length : ℚ) * (p / 100) ≤ (data.length : ℚ) := by
    have h1 : p / 100 ≤ 1 := by linarith
    nlinarith [Nat.cast_nonneg (α := ℚ) data.length]
  have hfl_le : ⌊(data.length : ℚ) * (p / 100)⌋ ≤ (data.length : Int) := by
    calc ⌊(data.length : ℚ) * (p / 100)⌋ ≤ ⌊(data.length : ℚ)⌋ := Int.floor_le_floor hple
      _ = (data.length : Int) := Int.floor_natCast _
  have hsamp : sampleStep (Pct.frac p) shuffle data
      = (shuffle data).take (⌊(data.length : ℚ) * (p / 100)⌋).toNat := by
    simp only [sampleStep, pyInt, pySliceTo]
    rw [if_pos hx0, if_pos hfl0]
  refine ⟨?_, ?_, rfl⟩
  · rw [hsamp, List.length_take]
    have hle : (⌊(data.length : ℚ) * (p / 100)⌋).toNat ≤ (shuffle data).length := by
      rw [hperm.length_eq]
      exact Int.toNat_le.mpr hfl_le
    rw [Nat.min_eq_left hle]
    exact Int.toNat_of_nonneg hfl0
  · intro x hx
    rw [hsamp] at hx
    exact hperm.subset (List.mem_of_mem_take hx)

/-- Witness for C2 at one record and a 50 percent request. -/
theorem sample_floor_subset_identity_witness :
    (((sampleStep (Pct.frac 50) id sampleData).length : Int)
        = ⌊(sampleData.length : ℚ) * (50 / 100)⌋)
      ∧ (∀ x ∈ sampleStep (Pct.frac 50) id sampleData, x ∈ sampleData)
      ∧ sampleStep Pct.hundred id sampleData = sampleData :=
  sample_floor_subset_identity sampleData id 50 (List.Perm.refl _) (by norm_num) (by norm_num)

/-- When the cap is not hit, a page appends all of its items. -/
theorem pageAppend_of_le (cap : Nat) (items : List RawItem) :
    ∀ acc : List CommentRec, acc.length + items.length ≤ cap →
      pageAppend cap items acc = acc ++ items.map toComment := by
  induction items with
  | nil => intro acc _; simp [pageAppend]
  | cons it rest ih =>
    intro acc h
    rw [pageAppend]
    split
    · next hc =>
      have hr : rest = [] := by
        simp only [List.length_append, List.length_cons, List.length_nil] at hc
        simp only [List.length_cons] at h
        exact List.length_eq_zero.mp (by omega)
      subst hr
      simp
    · next hc =>
      rw [ih _ (by simp only [List.length_append, List.length_cons, List.length_nil] at h ⊢; omega)]
      simp

/-- Claim C3 (counterexample): with one successful page that yielded a
comment and announced a continuation, followed by a failing page, the
accumulated page is non-empty and yet the fetch returns the empty list. -/
theorem fetch_partial_progress_discarded_cex :
    pageAppend max_comments_limit cexItems [] ≠ []
      ∧ fetch_comments Pct.hundred id cexPages = [] :=
  ⟨by decide, rfl⟩

/-- Claim C3 (amended): when a page call raises after an earlier page
already yielded comments (the cap not yet reached), the whole fetch
returns the empty list — the accumulated partial progress is discarded by
the `except` handler at lines 225-227, not preserved. -/
theorem fetch_error_returns_empty (pct : Pct)
    (shuffle : List CommentRec → List CommentRec)
    (items : List RawItem) (rest : List PageResp)
    (hlen : items.length < 1000) :
    fetch_comments pct shuffle (PageResp.ok items true :: PageResp.err :: rest) = [] := by
  have hpa : pageAppend max_comments_limit items [] = items.map toComment :=
    pageAppend_of_le max_comments_limit items [] (by simpa [max_comments_limit] using hlen.le)
  have hnc : ¬ max_comments_limit ≤ (items.map toComment).length := by
    simpa [max_comments_limit, List.length_map] using hlen
  unfold fetch_comments
  rw [fetchPages]
  simp only [hpa]
  rw [if_neg hnc]
  simp only [if_true]
  rw [fetchPages]

/-- Witness for the amended C3 at the concrete two-page run. -/
theorem fetch_error_returns_empty_witness :
    fetch_comments Pct.hundred id (PageResp.ok cexItems true :: PageResp.err :: []) = [] :=
  fetch_error_returns_empty Pct.hundred id cexItems [] (by decide)

/-- Claim C9: a transport/API error raised by the generation call is
caught and becomes a typed result carrying the error text — an
error-marked zero tally for sentiment analysis, an explanatory string for
the summary — instead of a propagating exception. -/
theorem api_error_soft_fail (texts : List PyVal) (e : Str)
    (hne : texts ≠ []) (hcl : cleanTexts texts ≠ []) :
    gpt_sentiment_analysis true texts (Except.error e)
        = SentimentResult.tally 0 0 0 (some e)
      ∧ gpt_comment_summary true texts (Except.error e) = gptWarnMsg ++ e := by
  have h1 : texts.isEmpty = false := by
    cases texts with
    | nil => exact absurd rfl hne
    | cons a l => rfl
  have h2 : (cleanTexts texts).isEmpty = false := by
    cases hc : cleanTexts texts with
    | nil => exact absurd hc hcl
    | cons a l => rfl
  constructor <;> simp [gpt_sentiment_analysis, gpt_comment_summary, h1, h2]

/-- Witness for C9 at a concrete text list and error string. -/
theorem api_error_soft_fail_witness :
    gpt_sentiment_analysis true sTexts (Except.error ("boom".toList))
        = SentimentResult.tally 0 0 0 (some ("boom".toList))
      ∧ gpt_comment_summary true sTexts (Except.error ("boom".toList))
          = gptWarnMsg ++ "boom".toList :=
  api_error_soft_fail sTexts ("boom".toList) (by decide) (by decide)

/-- Claim C10: when the input list is empty or contains only non-string
or whitespace-only entries, sentiment analysis returns an error-marked
zero tally and the result does not depend on the generation call at all
(the client is never consulted). -/
theorem empty_input_no_call (texts : List PyVal) (api api2 : Except Str Str)
    (hcl : cleanTexts texts = []) :
    gpt_sentiment_analysis true texts api = gpt_sentiment_analysis true texts api2
      ∧ ∃ e, gpt_sentiment_analysis true texts api = SentimentResult.tally 0 0 0 (some e) := by
  by_cases hne : texts.isEmpty
  · constructor
    · simp [gpt_sentiment_analysis, hne]
    · exact ⟨emptyListMsg, by simp [gpt_sentiment_analysis, hne]⟩
  · have hne2 : texts.isEmpty = false := by
      cases h : texts.isEmpty with
      | false => rfl
      | true => exact absurd h hne
    have h2 : (cleanTexts texts).isEmpty = true := by rw [hcl]; rfl
    constructor
    · simp [gpt_sentiment_analysis, hne2, h2]
    · exact ⟨emptyCleanMsg, by simp [gpt_sentiment_analysis, hne2, h2]⟩

/-- Witness for C10 at a concrete unusable text list and two distinct
generation outcomes. -/
theorem empty_input_no_call_witness :
    gpt_sentiment_analysis true wTexts (Except.ok ("x".toList))
        = gpt_sentiment_analysis true wTexts (Except.error ("y".toList))
      ∧ ∃ e, gpt_sentiment_analysis true wTexts (Except.ok ("x".toList))
          = SentimentResult.tally 0 0 0 (some e) :=
  empty_input_no_call wTexts (Except.ok ("x".toList)) (Except.error ("y".toList)) (by decide)

/-- A line that matches no label pattern leaves the fallback tally alone. -/
theorem fallbackLine_id (t : FallbackTally) (line : Str)
    (h : lineHasLabel ("positive".toList) (pyStrip line) = false
      ∧ lineHasLabel ("neutral".toList) (pyStrip line) = false
      ∧ lineHasLabel ("negative".toList) (pyStrip line) = false) :
    fallbackLine t line = t := by
  simp only [fallbackLine]
  rw [h.1, h.2.1, h.2.2]
  simp

/-- When no line matches a label, the fallback fold returns its start. -/
theorem foldl_fallbackLine_id (lines : List Str) :
    ∀ t : FallbackTally,
      (∀ line ∈ lines,
        lineHasLabel ("positive".toList) (pyStrip line) = false
        ∧ lineHasLabel ("neutral".toList) (pyStrip line) = false
        ∧ lineHasLabel ("negative".toList) (pyStrip line) = false) →
      lines.foldl fallbackLine t = t := by
  induction lines with
  | nil => intro t _; rfl
  | cons l ls ih =>
    intro t h
    rw [List.foldl_cons, fallbackLine_id t l (h l (by simp))]
    exact ih t fun x hx => h x (by simp [hx])

/-- Claim C5: when the stripped, fence-removed response decodes as no JSON
and no line contains any sentiment-label pattern, the result is the zero
tally carrying the explicit non-parsable error marker — distinguishable
from a genuine all-zero measurement, which carries no marker. -/
theorem unparsable_response_error_marker (raw : Str)
    (hdec : json_loads (stripFence (pyStrip raw)) = none)
    (hnl : ∀ line ∈ pySplitlines (pyLower (stripFence (pyStrip raw))),
        lineHasLabel ("positive".toList) (pyStrip line) = false
        ∧ lineHasLabel ("neutral".toList) (pyStrip line) = false
        ∧ lineHasLabel ("negative".toList) (pyStrip line) = false) :
    parseSentimentResponse raw
      = SentimentResult.tally 0 0 0 (some (fallbackMsg (stripFence (pyStrip raw)))) := by
  unfold parseSentimentResponse afterFence
  rw [hdec]
  unfold fallbackSentiment
  rw [foldl_fallbackLine_id _ _ hnl]
  norm_num

/-- Witness for C5 at the concrete unparsable input. -/
theorem unparsable_response_error_marker_witness :
    parseSentimentResponse rawNoLabels
      = SentimentResult.tally 0 0 0 (some (fallbackMsg (stripFence (pyStrip rawNoLabels)))) :=
  unparsable_response_error_marker rawNoLabels (by rfl) (by decide)

/-- Claim C4 (counterexample): a response that decodes as JSON but fails
shape validation (here the object missing the `negative` key) is answered
with the invalid-structure error tally, which differs from what the
line-oriented fallback would produce on the same text — the parser does
not treat shape failure like decode failure and does not fall through. -/
theorem invalid_shape_no_fallback_cex :
    parseSentimentResponse rawMissingKey
        = SentimentResult.tally 0 0 0 (some invalidStructMsg)
      ∧ parseSentimentResponse rawMissingKey
          ≠ fallbackSentiment (stripFence (pyStrip rawMissingKey)) := by
  refine ⟨rfl, fun h => ?_⟩
  have h2 : (some invalidStructMsg : Option Str) = none :=
    congrArg SentimentResult.errorOf h
  exact Option.noConfusion h2

/-- Claim C4 (amended): a response that decodes as JSON but fails the
shape validation stops at the validation step and returns the zero tally
marked "Invalid JSON structure or data types from GPT."; the line-oriented
fallback runs only on a decode failure. -/
theorem invalid_shape_returns_error_tally (raw : Str) (j : Json)
    (hdec : json_loads (stripFence (pyStrip raw)) = some j)
    (hval : validShape j = some false) :
    parseSentimentResponse raw = SentimentResult.tally 0 0 0 (some invalidStructMsg) := by
  simp only [parseSentimentResponse, afterFence, hdec, hval]

/-- Witness for the amended C4 at the concrete missing-key input. -/
theorem invalid_shape_returns_error_tally_witness :
    parseSentimentResponse rawMissingKey
      = SentimentResult.tally 0 0 0 (some invalidStructMsg) :=
  invalid_shape_returns_error_tally rawMissingKey missingKeyJson (by rfl) (by rfl)

/-- A list is a prefix of itself followed by anything (boolean form). -/
theorem isPrefixOf_append_self (a b : Str) : a.isPrefixOf (a ++ b) = true := by
  induction a with
  | nil => simp
  | cons c cs ih => simp [List.isPrefixOf, ih]

/-- A list is a suffix of anything followed by itself (boolean form). -/
theorem isSuffixOf_append_self (a b : Str) : a.isSuffixOf (b ++ a) = true := by
  unfold List.isSuffixOf
  rw [List.reverse_append]
  exact isPrefixOf_append_self _ _

/-- A fence-wrapped payload has no surrounding whitespace to strip. -/
theorem pyStrip_wrapFence (t : Str) : pyStrip (wrapFence t) = wrapFence t := by
  have hrev : (wrapFence t).reverse = '`' :: '`' :: '`' :: (fence7 ++ t).reverse := by
    rw [wrapFence, List.reverse_append]
    rfl
  have h1 : (wrapFence t).dropWhile pyWsChar = wrapFence t := rfl
  have h2 : ((wrapFence t).reverse).dropWhile pyWsChar = (wrapFence t).reverse := by
    rw [hrev]
    rfl
  unfold pyStrip
  rw [h1, h2, List.reverse_reverse]

/-- Fence stripping recovers the wrapped payload exactly. -/
theorem stripFence_wrapFence (t : Str) : stripFence (wrapFence t) = t := by
  have hp : fence7.isPrefixOf (wrapFence t) = true := by
    rw [wrapFence, List.append_assoc]
    exact isPrefixOf_append_self _ _
  have hdrop : (wrapFence t).drop 7 = t ++ fence3 := by
    rw [wrapFence, List.append_assoc]
    exact List.drop_left' (by rfl)
  have hs : fence3.isSuffixOf (t ++ fence3) = true := isSuffixOf_append_self _ _
  have htake : (t ++ fence3).take ((t ++ fence3).length - 3) = t := by
    have hlen : (t ++ fence3).length - 3 = t.length := by
      simp [List.length_append, fence3]
    rw [hlen]
    exact List.take_left t fence3
  simp only [stripFence, hp, if_true, hdrop, hs, htake]

/-- Fence stripping leaves a fence-free text unchanged. -/
theorem stripFence_id (t : Str) (hpre : fence7.isPrefixOf t = false)
    (hsuf : fence3.isSuffixOf t = false) : stripFence t = t := by
  simp only [stripFence, hpre, hsuf, Bool.false_eq_true, if_false]

/-- Claim C6: a well-formed structured sentiment payload wrapped in a
json-tagged code fence (leading three-backtick `json` opener, trailing
three-backtick closer) parses to exactly the same result as the bare
payload. -/
theorem fenced_parse_eq_unfenced (t : Str)
    (hstrip : pyStrip t = t)
    (hpre : fence7.isPrefixOf t = false)
    (hsuf : fence3.isSuffixOf t = false)
    (_hwf : ∃ j, json_loads t = some j ∧ validShape j = some true) :
    parseSentimentResponse (wrapFence t) = parseSentimentResponse t := by
  unfold parseSentimentResponse
  rw [pyStrip_wrapFence, stripFence_wrapFence, hstrip, stripFence_id t hpre hsuf]

/-- Witness for C6 at the concrete well-formed payload. -/
theorem fenced_parse_eq_unfenced_witness :
    parseSentimentResponse (wrapFence wellFormedPayload)
      = parseSentimentResponse wellFormedPayload :=
  fenced_parse_eq_unfenced wellFormedPayload (by rfl) (by rfl) (by rfl)
    ⟨wellFormedJson, by rfl, by rfl⟩

/-- A record surviving the ranking filter has an integer like count and
comes from the input list. -/
theorem mem_top_10_comments (l : List CommentRec) (c : CommentRec)
    (hc : c ∈ top_10_comments l) : c.likes.isSome = true ∧ c ∈ l := by
  have h1 : c ∈ sortedByLikes l := List.mem_of_mem_take hc
  have h2 : c ∈ comments_with_likes l :=
    (List.perm_insertionSort likeGE (comments_with_likes l)).subset h1
  rw [comments_with_likes, List.mem_filter] at h2
  exact ⟨h2.2, h2.1⟩

/-- Stability of the comment ranking: the records holding any fixed like
count appear in the sorted list exactly as they appear in the input, so
ties keep their original fetch order. -/
theorem sortedByLikes_stable (l : List CommentRec) (v : Int) :
    (sortedByLikes l).filter (fun c => c.likes == some v)
      = l.filter (fun c => c.likes == some v) := by
  have hmemv : ∀ c ∈ l.filter (fun c => c.likes == some v), c.likes = some v := by
    intro c hc
    have h := (List.mem_filter.mp hc).2
    exact eq_of_beq h
  have hpair : (l.filter (fun c => c.likes == some v)).Pairwise likeGE := by
    apply List.pairwise_of_forall_mem_list
    intro a ha b hb
    have hva := hmemv a ha
    have hvb := hmemv b hb
    simp [likeGE, likeVal, hva, hvb]
  have hfilter_eq : (comments_with_likes l).filter (fun c => c.likes == some v)
      = l.filter (fun c => c.likes == some v) := by
    rw [comments_with_likes, List.filter_filter]
    apply List.filter_congr
    intro c _
    cases hl : c.likes with
    | none => simp
    | some w => simp
  have h1 : List.Sublist (l.filter (fun c => c.likes == some v)) (sortedByLikes l) := by
    apply List.sublist_insertionSort hpair
    rw [← hfilter_eq]
    exact List.filter_sublist _
  have h2 : (l.filter (fun c => c.likes == some v)).filter (fun c => c.likes == some v)
      = l.filter (fun c => c.likes == some v) := by
    apply List.filter_eq_self.mpr
    intro a ha
    exact (List.mem_filter.mp ha).2
  have h3 : List.Sublist (l.filter (fun c => c.likes == some v))
      ((sortedByLikes l).filter (fun c => c.likes == some v)) := by
    rw [← h2]
    exact h1.filter _
  have h4 : ((sortedByLikes l).filter (fun c => c.likes == some v)).length
      = (l.filter (fun c => c.likes == some v)).length := by
    have hperm : (sortedByLikes l).Perm (comments_with_likes l) :=
      List.perm_insertionSort likeGE (comments_with_likes l)
    have hpf := hperm.filter (fun c => c.likes == some v)
    rw [hfilter_eq] at hpf
    exact hpf.length_eq
  exact (h3.eq_of_length h4.symm).symm

/-- Claim C7: top-comment ranking excludes every record without an integer
like count, sorts the rest descending by like count with the stable
tie-break by original fetch position, and truncates to 10; in particular,
on like counts [5, 5, 3, None, 10] the first three ranked records carry
counts 10, 5, 5 with the two fives in their original relative order. -/
theorem top_10_comments_spec :
    (∀ l : List CommentRec, (top_10_comments l).length ≤ 10)
      ∧ (∀ l : List CommentRec, ∀ c ∈ top_10_comments l, c.likes.isSome = true ∧ c ∈ l)
      ∧ (∀ l : List CommentRec, (top_10_comments l).Pairwise likeGE)
      ∧ (∀ (l : List CommentRec) (v : Int),
          (sortedByLikes l).filter (fun c => c.likes == some v)
            = l.filter (fun c => c.likes == some v))
      ∧ (top_10_comments exComments).take 3 = [exE, exA, exB] := by
  refine ⟨?_, mem_top_10_comments, ?_, sortedByLikes_stable, by decide⟩
  · intro l
    simp [top_10_comments, List.length_take]
  · intro l
    exact List.Pairwise.sublist (List.take_sublist 10 (sortedByLikes l))
      (List.sorted_insertionSort likeGE (comments_with_likes l))

/-- Witness for C7: the highest-liked record of the example is ranked and
comes from the input. -/
theorem top_10_comments_spec_witness :
    exE.likes.isSome = true ∧ exE ∈ exComments :=
  top_10_comments_spec.2.1 exComments exE (by decide)

/-- Claim C8: reply ranking removes, before sorting, every reply lacking
an integer like count or non-empty text, and returns at most the
requested 3 replies even when more valid replies exist — on the example
with four valid replies only the three highest-liked are returned. -/
theorem sorted_replies_spec :
    (∀ replies : List ReplyVal, (sorted_replies_list replies).length ≤ 3)
      ∧ (∀ replies : List ReplyVal, ∀ r ∈ sorted_replies_list replies,
          (replyLike r).isSome = true ∧ replyTextTruthy r = true ∧ r ∈ replies)
      ∧ sorted_replies_list exReplies = [exZ, exV, exY] := by
  refine ⟨?_, ?_, by decide⟩
  · intro replies
    simp [sorted_replies_list, List.length_take]
  · intro replies r hr
    have h1 : r ∈ List.insertionSort replyGE (valid_replies_list replies) :=
      List.mem_of_mem_take hr
    have h2 : r ∈ valid_replies_list replies :=
      (List.perm_insertionSort replyGE (valid_replies_list replies)).subset h1
    rw [valid_replies_list, List.mem_filter] at h2
    obtain ⟨hmem, hb⟩ := h2
    simp only [Bool.and_eq_true] at hb
    exact ⟨hb.1.2, hb.2, hmem⟩

/-- Witness for C8: the highest-liked valid reply of the example is valid
and comes from the input. -/
theorem sorted_replies_spec_witness :
    (replyLike exZ).isSome = true ∧ replyTextTruthy exZ = true ∧ exZ ∈ exReplies :=
  sorted_replies_spec.2.1 exReplies exZ (by decide)
